import Mathlib

/-!
Verification of the session storage and authorization subsystem of
`klein/storage/_sql.py`: a shallow embedding of the data model
(session, account, account_session and session_ip tables), the
transaction machinery (`Transaction`, `AlchimiaDataStore.sql`), the
session store operations, account binding, IP tracking and the
authorizer registry, together with theorems settling the specification
claims about them.

Modelling conventions:
* Twisted Deferreds resolve sequentially in a single-threaded
  cooperative model, so every operation is a pure function that
  threads the database state (`DB`) or the datastore state
  (`Datastore`) explicitly and returns `Except PyErr` where the
  Python code can fail.
* The SQL engine itself (SQLAlchemy plus the database) is modelled by
  `runStatement`, an interpreter for exactly the statements the
  source issues, enforcing the uniqueness constraints declared in the
  source's table definitions.  Foreign-key cascade behaviour is not
  exercised by any claim and is not modelled.
* Randomness (`os.urandom`, `uuid.uuid4`) is passed in as an explicit
  argument, and `datetime.utcnow()` as an explicit `Nat` timestamp.
-/

set_option linter.unusedVariables false

/-- The zope interfaces used for component discovery in the source
(`componentsProviding`), plus capabilities used as authorization keys.
`IOther n` stands for any third-party capability. -/
inductive Interface where
  | ISessionStore
  | ISessionProcurer
  | ISQLSchemaComponent
  | ISQLAuthorizer
  | ISimpleAccountBinding
  | ISimpleAccount
  | IOther (n : Nat)
deriving DecidableEq, Repr

/-- The exceptions raised by the modelled code paths:
`TransactionEnded` (use after commit/rollback), `IntegrityError`
(uniqueness-constraint violation), `OperationalError` (table
creation failure), `NoSuchSession` (session load miss) and
`ValueError` (failed `[row] = rows` destructuring in `log_in`). -/
inductive PyErr where
  | transactionEnded (reason : String)
  | integrityError
  | operationalError (tableName : String)
  | noSuchSession
  | valueError
deriving DecidableEq, Repr

/-- A row of the `session` table: `(sessionID PK, confidential)`. -/
structure SessionRow where
  sessionID : String
  confidential : Bool
deriving DecidableEq, Repr

/-- The opaque password hash produced by `computeKeyText`
(klein/storage/security.py, which is not part of the sources under
verification).  Modelled from the spec: a salted hash is represented
abstractly by the hashing-scheme tag together with the plaintext it
hashes; verification compares plaintexts, and a non-current scheme
marks a weaker/legacy hash eligible for rehash-on-login. -/
structure KeyText where
  scheme : Nat
  plaintext : String
deriving DecidableEq, Repr

/-- A row of the `account` table:
`(accountID PK, username UNIQUE, email, passwordBlob)`. -/
structure AccountRow where
  accountID : String
  username : String
  email : String
  passwordBlob : KeyText
deriving DecidableEq, Repr

/-- A row of the `account_session` table:
`(accountID FK, sessionID FK, UNIQUE (accountID, sessionID))`. -/
structure AccountSessionRow where
  accountID : String
  sessionID : String
deriving DecidableEq, Repr

/-- A row of the `session_ip` table: `(sessionID FK, ip_address,
address_family, last_used, UNIQUE (sessionID, ip_address,
address_family))`. -/
structure SessionIPRow where
  sessionID : String
  ip_address : String
  address_family : String
  last_used : Nat
deriving DecidableEq, Repr

/-- The database state: the four tables owned by the subsystem's
schema components, plus the set of tables already created (used by
the `CreateTable` / `OperationalError` paths of schema
initialization). -/
structure DB where
  createdTables : List String
  session_table : List SessionRow
  accountTable : List AccountRow
  account_session_table : List AccountSessionRow
  session_ip_table : List SessionIPRow
deriving DecidableEq, Repr

def emptyDB : DB := ⟨[], [], [], [], []⟩

/-- The composite uniqueness key of the `session_ip` table. -/
def sameIPKey (sessionID ip_address address_family : String)
    (r : SessionIPRow) : Bool :=
  r.sessionID == sessionID && r.ip_address == ip_address &&
    r.address_family == address_family

/-- The SQL statements issued by the source, one constructor per
query shape appearing in `_sql.py`. -/
inductive Stmt where
  | createTable (tname : String)
  | insertSession (sessionID : String) (confidential : Bool)
  | selectSession (sessionID : String) (confidential : Bool)
  | insertAccount (row : AccountRow)
  | selectAccountByUsername (username : String)
  | updatePasswordBlob (accountID : String) (newPW : KeyText)
  | insertAccountSession (accountID : String) (sessionID : String)
  | deleteAccountSessionsFor (sessionID : String)
  | insertSessionIP (row : SessionIPRow)
  | updateSessionIPLastUsed (sessionID ip_address address_family : String)
      (last_used : Nat)
deriving DecidableEq, Repr

/-- Result sets returned by the SQL engine. -/
inductive QueryResult where
  | done
  | sessionRows (rows : List SessionRow)
  | accountRows (rows : List AccountRow)
deriving DecidableEq, Repr

/-- The SQL engine: executes one statement against the database
state, enforcing the primary-key and uniqueness constraints declared
in the source's `Table(...)` definitions.  A failed statement leaves
the database unchanged and reports `IntegrityError` (constraint
violation) or `OperationalError` (table already exists). -/
def runStatement : Stmt → DB → DB × Except PyErr QueryResult
  | .createTable t, db =>
      if db.createdTables.contains t then (db, .error (.operationalError t))
      else ({ db with createdTables := db.createdTables ++ [t] }, .ok .done)
  | .insertSession sid conf, db =>
      if db.session_table.any (fun r => r.sessionID == sid) then
        (db, .error .integrityError)
      else ({ db with session_table := db.session_table ++ [⟨sid, conf⟩] },
            .ok .done)
  | .selectSession sid conf, db =>
      (db, .ok (.sessionRows (db.session_table.filter
        (fun r => r.sessionID == sid && r.confidential == conf))))
  | .insertAccount row, db =>
      if db.accountTable.any
          (fun a => a.accountID == row.accountID || a.username == row.username)
      then (db, .error .integrityError)
      else ({ db with accountTable := db.accountTable ++ [row] }, .ok .done)
  | .selectAccountByUsername u, db =>
      (db, .ok (.accountRows (db.accountTable.filter
        (fun a => a.username == u))))
  | .updatePasswordBlob aid pw, db =>
      ({ db with accountTable := db.accountTable.map (fun a =>
          if a.accountID == aid then { a with passwordBlob := pw } else a) },
       .ok .done)
  | .insertAccountSession aid sid, db =>
      if db.account_session_table.any
          (fun r => r.accountID == aid && r.sessionID == sid)
      then (db, .error .integrityError)
      else ({ db with account_session_table :=
                db.account_session_table ++ [⟨aid, sid⟩] }, .ok .done)
  | .deleteAccountSessionsFor sid, db =>
      ({ db with account_session_table :=
          db.account_session_table.filter (fun r => !(r.sessionID == sid)) },
       .ok .done)
  | .insertSessionIP row, db =>
      if db.session_ip_table.any
          (sameIPKey row.sessionID row.ip_address row.address_family)
      then (db, .error .integrityError)
      else ({ db with session_ip_table := db.session_ip_table ++ [row] },
            .ok .done)
  | .updateSessionIPLastUsed sid ip fam t, db =>
      ({ db with session_ip_table := db.session_ip_table.map (fun r =>
          if sameIPKey sid ip fam r then { r with last_used := t } else r) },
       .ok .done)

/-- A pooled connection (identified by a number); executing a
statement on it hands the statement to the SQL engine. -/
def Connection.execute (cxn : Nat) (statement : Stmt) (db : DB) :
    DB × Except PyErr QueryResult :=
  runStatement statement db

/-- `Transaction`: wrapper around a connection which is invalidated
when the transaction is committed or rolled back.  `_stopped` is
`none` while the transaction is live (Python `False`) and carries the
reason string once the transaction has concluded. -/
structure Transaction where
  _connection : Nat
  _stopped : Option String
deriving DecidableEq, Repr

/-- `Transaction.execute`: execute a statement unless this
transaction has been stopped, otherwise raise `TransactionEnded`
carrying the stop reason. -/
def Transaction.execute (txn : Transaction) (statement : Stmt) (db : DB) :
    DB × Except PyErr QueryResult :=
  match txn._stopped with
  | some reason => (db, .error (.transactionEnded reason))
  | none => Connection.execute txn._connection statement db

/-- The state of an `AlchimiaDataStore`: the database reachable
through its engine, the deque of free pooled connections, a supply of
fresh connection numbers (connections the engine has not yet handed
out), and an instrumentation counter of transactions begun by `sql`
(used to state that an operation runs in a single transaction). -/
structure Datastore where
  db : DB
  _free_connections : List Nat
  _next_connection : Nat
  txnCount : Nat
deriving DecidableEq, Repr

/-- The connection `sql` works with: `popleft()` of the free deque
when it is non-empty, otherwise a fresh connection from the engine. -/
def Datastore.acquiredConnection (ds : Datastore) : Nat :=
  match ds._free_connections with
  | [] => ds._next_connection
  | c :: _ => c

/-- What one `sql` call produces: the datastore afterwards, the
(now concluded) `Transaction` handle it created, and the result the
returned Deferred fires with. -/
structure SqlResult (A : Type) where
  ds : Datastore
  txn : Transaction
  result : Except PyErr A

/-- `AlchimiaDataStore.sql`: acquire a connection (`popleft()` of the
free deque, or a fresh one when the deque is empty), begin a
transaction, run the callable on a live `Transaction` wrapper; on
success mark the wrapper `"committed"` and commit, on any failure
capture the failure, mark the wrapper `"rolled back"`, roll back
(discarding the callable's writes) and fire the returned Deferred
with the original failure.  In all cases the connection is appended
to the right end of the free deque afterwards. -/
def Datastore.sql {A : Type} (ds : Datastore)
    (callable : Transaction → DB → DB × Except PyErr A) : SqlResult A :=
  match callable ⟨ds.acquiredConnection, none⟩ ds.db with
  | (dbAfter, .ok r) =>
      ⟨⟨dbAfter, ds._free_connections.tail ++ [ds.acquiredConnection],
        (if ds._free_connections.isEmpty then ds._next_connection + 1
         else ds._next_connection), ds.txnCount + 1⟩,
       ⟨ds.acquiredConnection, some "committed"⟩, .ok r⟩
  | (_, .error e) =>
      ⟨⟨ds.db, ds._free_connections.tail ++ [ds.acquiredConnection],
        (if ds._free_connections.isEmpty then ds._next_connection + 1
         else ds._next_connection), ds.txnCount + 1⟩,
       ⟨ds.acquiredConnection, some "rolled back"⟩, .error e⟩

/-- A `SQLSession`: identifier, confidentiality flag and the
caller-asserted `authenticatedBy` metadata.  (The source also keeps a
back-reference `_sessionStore` for re-authorization; the store's
state lives in `Datastore` here, so the back-reference is dropped.) -/
structure SQLSession where
  identifier : String
  isConfidential : Bool
  authenticatedBy : String
deriving DecidableEq, Repr

/-- The sixteen lowercase hex digits, in value order. -/
def hexDigits : List Char := "0123456789abcdef".data

def hexChar (n : Nat) : Char := hexDigits.getD n '0'

/-- The character list underlying `binascii.hexlify`: two lowercase
hex digits per byte, in order. -/
def hexlifyChars (bytes : List Nat) : List Char :=
  bytes.foldr (fun b acc => hexChar (b / 16) :: hexChar (b % 16) :: acc) []

/-- `hexlify(bytes).decode("ascii")`. -/
def hexlify (bytes : List Nat) : String := ⟨hexlifyChars bytes⟩

namespace AlchimiaSessionStore

/-- `AlchimiaSessionStore.newSession`: in one transaction, generate a
fresh identifier by hex-encoding 32 random bytes (`urandomBytes` is
what `os.urandom(32)` returned), insert the session row, and return
a `SQLSession` carrying the identifier, confidentiality flag and
`authenticatedBy`. -/
def newSession (isConfidential : Bool) (authenticatedBy : String)
    (urandomBytes : List Nat) (ds : Datastore) : SqlResult SQLSession :=
  ds.sql (fun txn db =>
    let identifier := hexlify urandomBytes
    match txn.execute (.insertSession identifier isConfidential) db with
    | (db2, .ok _) => (db2, .ok ⟨identifier, isConfidential, authenticatedBy⟩)
    | (db2, .error e) => (db2, .error e))

/-- `AlchimiaSessionStore.loadSession`: select by identifier and
confidentiality; raise `NoSuchSession` when no row matches, otherwise
rebuild a `SQLSession` from the fetched identifier and the
caller-supplied flag and `authenticatedBy`. -/
def loadSession (identifier : String) (isConfidential : Bool)
    (authenticatedBy : String) (ds : Datastore) : SqlResult SQLSession :=
  ds.sql (fun txn db =>
    match txn.execute (.selectSession identifier isConfidential) db with
    | (db2, .ok (.sessionRows results)) =>
        match results with
        | [] => (db2, .error .noSuchSession)
        | r :: _ => (db2, .ok ⟨r.sessionID, isConfidential, authenticatedBy⟩)
    | (db2, .ok _) => (db2, .error .valueError)
    | (db2, .error e) => (db2, .error e))

end AlchimiaSessionStore

/-- The hashing scheme `computeKeyText` currently produces.
Modelled from the spec: the password-hashing primitive lives in
klein/storage/security.py, which is not among the sources under
verification. -/
def currentScheme : Nat := 1

/-- Modelled from the spec: `computeKeyText` (klein/storage/security.py,
not among the sources) is the `computeHash(plaintext) → hash`
primitive: it produces a salted hash of the password under the
current scheme.  The hash is represented abstractly by the scheme tag
plus the hashed plaintext. -/
def computeKeyText (password : String) : KeyText :=
  ⟨currentScheme, password⟩

/-- Modelled from the spec: `checkAndReset` (klein/storage/security.py,
not among the sources) is the
`verifyAndMaybeRehash(storedHash, plaintext, onRehash) → bool`
primitive: it verifies the password against the stored hash; on
success, if the stored hash is in a weaker/legacy format, it triggers
the rehash-and-store callback transparently; on verification failure
it returns false without invoking the callback. -/
def checkAndReset (storedHash : KeyText) (password : String)
    (resetter : KeyText → Datastore → Datastore) (ds : Datastore) :
    Datastore × Bool :=
  if storedHash.plaintext = password then
    if storedHash.scheme = currentScheme then (ds, true)
    else (resetter (computeKeyText password) ds, true)
  else (ds, false)

/-- A `SQLAccount` handle.  (The source also keeps `_plugin` and
`_datastore` references; the tables and datastore state are explicit
arguments here.) -/
structure SQLAccount where
  accountID : String
  username : String
  email : String
deriving DecidableEq, Repr

/-- `SQLAccount.add_session`: insert an `(accountID, sessionID)` row
into the `account_session` table in one transaction. -/
def SQLAccount.add_session (account : SQLAccount) (session : SQLSession)
    (ds : Datastore) : SqlResult QueryResult :=
  ds.sql (fun txn db =>
    txn.execute (.insertAccountSession account.accountID session.identifier) db)

namespace AccountSessionBinding

/-- `AccountSessionBinding.create_account`: compute the password hash
outside any transaction, then in one transaction insert the account
row under a fresh accountID (`uuid` is what `unicode(uuid4())`
returned); an `IntegrityError` (duplicate username or accountID) is
caught and reported as `none`, any other failure propagates. -/
def create_account (username email password : String) (uuid : String)
    (ds : Datastore) : Datastore × Except PyErr (Option SQLAccount) :=
  let computedHash := computeKeyText password
  let r := ds.sql (fun txn db =>
    let newAccountID := uuid
    match txn.execute
        (.insertAccount ⟨newAccountID, username, email, computedHash⟩) db with
    | (db2, .ok _) => (db2, .ok (some newAccountID))
    | (db2, .error .integrityError) => (db2, .ok none)
    | (db2, .error e) => (db2, .error e))
  match r.result with
  | .ok (some accountID) => (r.ds, .ok (some ⟨accountID, username, email⟩))
  | .ok none => (r.ds, .ok none)
  | .error e => (r.ds, .error e)

/-- `AccountSessionBinding.log_in`: select the account row by
username in one transaction; absent row means `none`; a unique row is
checked with `checkAndReset` (whose rehash callback runs its own
transaction via `reset_password`); on verification success the
session is bound to the account (`add_session`, its own transaction)
and the account handle is returned, on failure the Deferred fires
`none`.  More than one row makes `[row] = accountsInfo` raise. -/
def log_in (session : SQLSession) (username password : String)
    (ds : Datastore) : Datastore × Except PyErr (Option SQLAccount) :=
  let r1 := ds.sql (fun txn db =>
    match txn.execute (.selectAccountByUsername username) db with
    | (db2, .ok (.accountRows rows)) => (db2, .ok rows)
    | (db2, .ok _) => (db2, .error .valueError)
    | (db2, .error e) => (db2, .error e))
  match r1.result with
  | .error e => (r1.ds, .error e)
  | .ok [] => (r1.ds, .ok none)
  | .ok [row] =>
      let reset_password := fun (newPWText : KeyText) (dsIn : Datastore) =>
        (dsIn.sql (fun txn db =>
          txn.execute (.updatePasswordBlob row.accountID newPWText) db)).ds
      match checkAndReset row.passwordBlob password reset_password r1.ds with
      | (ds2, true) =>
          let account : SQLAccount := ⟨row.accountID, row.username, row.email⟩
          let r3 := account.add_session session ds2
          match r3.result with
          | .ok _ => (r3.ds, .ok (some account))
          | .error e => (r3.ds, .error e)
      | (ds2, false) => (ds2, .ok none)
  | .ok _ => (r1.ds, .error .valueError)

/-- `AccountSessionBinding.log_out`: delete all `account_session`
rows carrying this session's identifier, in one transaction. -/
def log_out (session : SQLSession) (ds : Datastore) : SqlResult QueryResult :=
  ds.sql (fun txn db =>
    txn.execute (.deleteAccountSessionsFor session.identifier) db)

end AccountSessionBinding

/-- `upsert`: try inserting; if inserting fails with `IntegrityError`
then update `last_used` for the rows matching the query columns
`(sessionID, ip_address, address_family)`.  (The source's generic
helper, specialized to its only call site, the `session_ip` table.) -/
def upsert (txn : Transaction) (row : SessionIPRow) (db : DB) :
    DB × Except PyErr QueryResult :=
  match txn.execute (.insertSessionIP row) db with
  | (db2, .ok r) => (db2, .ok r)
  | (db2, .error .integrityError) =>
      txn.execute (.updateSessionIPLastUsed row.sessionID row.ip_address
        row.address_family row.last_used) db2
  | (db2, .error e) => (db2, .error e)

namespace IPTrackingProcurer

/-- `IPTrackingProcurer.procureSession`: delegate to the wrapped
procurer (`innerSession` is what it yielded); a `None` session passes
through unchanged; otherwise extract the client IP (any extraction
failure, here a missing host, falls back to the empty string),
classify the address family by presence of a colon, and upsert
`(sessionID, ip, family) → now` in one transaction, returning the
original session. -/
def procureSession (innerSession : Option SQLSession)
    (clientHost : Option String) (now : Nat) (ds : Datastore) :
    Datastore × Except PyErr (Option SQLSession) :=
  match innerSession with
  | none => (ds, .ok none)
  | some session =>
      let sessionID := session.identifier
      let ip_address := clientHost.getD ""
      let touch := ds.sql (fun txn db =>
        let address_family := if ip_address.contains ':' then "AF_INET6"
                              else "AF_INET"
        let last_used := now
        upsert txn ⟨sessionID, ip_address, address_family, last_used⟩ db)
      match touch.result with
      | .ok _ => (touch.ds, .ok (some session))
      | .error e => (touch.ds, .error e)

end IPTrackingProcurer


/-- An `ISQLAuthorizer` component as seen by `SQLSession.authorize`:
the interfaces it provides (for `componentsProviding` discovery), the
capability it declares authorization for, and its
`authzn_for_session(session_store, transaction, session)` body,
returning a value of the capability's implementation type `V`.  (The
`session_store` argument is the store whose state lives in the
threaded `DB`.) -/
structure SQLAuthorizer (V : Type) where
  provides : List Interface
  authzn_for : Interface
  authzn_for_session : Transaction → SQLSession → DB → DB × V

/-- `componentsProviding(ISQLAuthorizer)`: the registered components
that provide the authorizer interface, in registration order. -/
def componentsProvidingAuthorizer {V : Type}
    (components : List (SQLAuthorizer V)) : List (SQLAuthorizer V) :=
  components.filter (fun a => a.provides.contains Interface.ISQLAuthorizer)

/-- Python-dict assignment `result[k] = v`: replace the value at an
existing key in place, otherwise append the new entry. -/
def dictSet {V : Type} (m : List (Interface × V)) (k : Interface) (v : V) :
    List (Interface × V) :=
  if m.any (fun kv => kv.1 == k) then
    m.map (fun kv => if kv.1 == k then (k, v) else kv)
  else m ++ [(k, v)]

/-- The loop body of `SQLSession.authorize`: for one registered
authorizer, if its declared capability is among the requested
interfaces, invoke `authzn_for_session` on the shared transaction and
store its value in the result dict; otherwise leave the state
untouched. -/
def authzn_step {V : Type} (txn : Transaction) (session : SQLSession)
    (interfaces : List Interface) (acc : DB × List (Interface × V))
    (a : SQLAuthorizer V) : DB × List (Interface × V) :=
  if a.authzn_for ∈ interfaces then
    ((a.authzn_for_session txn session acc.1).1,
     dictSet acc.2 a.authzn_for (a.authzn_for_session txn session acc.1).2)
  else acc

/-- `SQLSession.authorize`: inside a single `datastore.sql`
transaction, walk the registered authorizers (discovered through
`componentsProviding(ISQLAuthorizer)`) in registration order, invoke
each one whose declared capability was requested, and gather the
results into a capability-to-implementation mapping. -/
def SQLSession.authorize {V : Type} (session : SQLSession)
    (components : List (SQLAuthorizer V)) (interfaces : List Interface)
    (ds : Datastore) : SqlResult (List (Interface × V)) :=
  ds.sql (fun txn db =>
    let authorizers := componentsProvidingAuthorizer components
    let final := authorizers.foldl (authzn_step txn session interfaces)
      (db, [])
    (final.1, .ok final.2))

/-- A component as registered by `AlchimiaDataStore.open`: the
interfaces it declares (its `@implementer` decorators) and its
`initialize_schema` body (only ever invoked on components declaring
`ISQLSchemaComponent`). -/
structure OpenComponent where
  name : String
  provides : List Interface
  initialize_schema : Transaction → DB → DB × Except PyErr Unit

/-- `componentsProviding(interface)` over the registry built by
`AlchimiaDataStore.open`: the registered components that declare the
interface, in registration order. -/
def componentsProviding (iface : Interface)
    (components : List OpenComponent) : List OpenComponent :=
  components.filter (fun c => c.provides.contains iface)

/-- `AlchimiaSessionStore` as a registered component:
`@implementer(ISessionStore, ISQLSchemaComponent)`, whose
`initialize_schema` creates the `session` table, swallowing (and
printing) an `OperationalError`. -/
def alchimiaSessionStoreComponent : OpenComponent where
  name := "AlchimiaSessionStore"
  provides := [.ISessionStore, .ISQLSchemaComponent]
  initialize_schema := fun txn db =>
    match txn.execute (.createTable "session") db with
    | (db2, .ok _) => (db2, .ok ())
    | (db2, .error (.operationalError _)) => (db2, .ok ())
    | (db2, .error e) => (db2, .error e)

/-- `AccountBindingStorePlugin` as a registered component:
`@implementer(ISQLAuthorizer, ISQLSchemaComponent)`, whose
`initialize_schema` creates the `account` and `account_session`
tables (with no exception handling of its own). -/
def accountBindingStorePluginComponent : OpenComponent where
  name := "AccountBindingStorePlugin"
  provides := [.ISQLAuthorizer, .ISQLSchemaComponent]
  initialize_schema := fun txn db =>
    match txn.execute (.createTable "account") db with
    | (db1, .ok _) =>
        (match txn.execute (.createTable "account_session") db1 with
         | (db2, .ok _) => (db2, .ok ())
         | (db2, .error e) => (db2, .error e))
    | (db1, .error e) => (db1, .error e)

/-- `IPTrackingProcurer` as a registered component:
`@implementer(ISessionProcurer, ISQLSchemaComponent)`, whose
`initialize_schema` creates the `session_ip` table, swallowing (and
printing) an `OperationalError`. -/
def ipTrackingProcurerComponent : OpenComponent where
  name := "IPTrackingProcurer"
  provides := [.ISessionProcurer, .ISQLSchemaComponent]
  initialize_schema := fun txn db =>
    match txn.execute (.createTable "session_ip") db with
    | (db2, .ok _) => (db2, .ok ())
    | (db2, .error (.operationalError _)) => (db2, .ok ())
    | (db2, .error e) => (db2, .error e)

/-- `AccountLoginAuthorizer` as a registered component:
`@implementer(ISQLAuthorizer)` only.  It has no `initialize_schema`
in the source; the field below is never invoked because the
component does not declare `ISQLSchemaComponent`. -/
def accountLoginAuthorizerComponent : OpenComponent where
  name := "AccountLoginAuthorizer"
  provides := [.ISQLAuthorizer]
  initialize_schema := fun _ db => (db, .ok ())

namespace AlchimiaDataStore

/-- The loop of `_populate_schema`'s callable: run each registered
schema component's `initialize_schema` in turn on the shared
transaction, catching (and merely printing) an `OperationalError`
per component; any other failure propagates and aborts the
transaction. -/
def initializeSchemas (txn : Transaction) :
    List OpenComponent → DB → DB × Except PyErr Unit
  | [], db => (db, .ok ())
  | c :: rest, db =>
      match c.initialize_schema txn db with
      | (db2, .ok _) => initializeSchemas txn rest db2
      | (db2, .error (.operationalError _)) => initializeSchemas txn rest db2
      | (db2, .error e) => (db2, .error e)

/-- `AlchimiaDataStore._populate_schema`: one `sql` transaction
running every `ISQLSchemaComponent`'s `initialize_schema`. -/
def populate_schema (components : List OpenComponent) (ds : Datastore) :
    SqlResult Unit :=
  ds.sql (fun txn db =>
    initializeSchemas txn (componentsProviding .ISQLSchemaComponent components)
      db)

/-- `AlchimiaDataStore.open`: build a fresh metadata container and a
datastore over a freshly created engine (no connections pooled yet,
no transaction run yet), instantiate every component creator in
order, registering each resulting component, and return the
registry and the store.  Note that — exactly as in the source — the
store is returned without `_populate_schema` ever being invoked. -/
def openStore (component_creators : List OpenComponent) :
    List OpenComponent × Datastore :=
  (component_creators, ⟨emptyDB, [], 0, 0⟩)

end AlchimiaDataStore

/-- `openSessionStore`: open an `AlchimiaDataStore` over the default
component creators — `AlchimiaSessionStore`,
`AccountBindingStorePlugin`, the `IPTrackingProcurer` wrapping a base
procurer over the session store, and `AccountLoginAuthorizer` —
followed by the caller-supplied creators, then return the first
registered component providing `ISessionProcurer`. -/
def openSessionStore (component_creators : List OpenComponent) :
    (List OpenComponent × Datastore) × Option OpenComponent :=
  let opened := AlchimiaDataStore.openStore
    ([alchimiaSessionStoreComponent, accountBindingStorePluginComponent,
      ipTrackingProcurerComponent, accountLoginAuthorizerComponent] ++
     component_creators)
  (opened, (componentsProviding .ISessionProcurer opened.1).head?)

/-- Claim C2: for every callable passed to `Datastore.sql` that
raises a failure, `sql` rolls the transaction back (the database
reverts to its pre-transaction state), marks the `Transaction` handle
ended with reason `"rolled back"`, and the Deferred returned by `sql`
fails with the original failure raised by the callable, not a
rollback-specific error. -/
theorem C2_sql_rolls_back_and_propagates_original_failure
    {A : Type} (ds : Datastore) (f : Transaction → DB → DB × Except PyErr A)
    (dbAfter : DB) (e : PyErr)
    (h : f ⟨ds.acquiredConnection, none⟩ ds.db = (dbAfter, .error e)) :
    (ds.sql f).result = .error e ∧
    (ds.sql f).txn._stopped = some "rolled back" ∧
    (ds.sql f).ds.db = ds.db := by
  unfold Datastore.sql
  rw [h]
  exact ⟨rfl, rfl, rfl⟩

def dsC2 : Datastore := ⟨emptyDB, [], 0, 0⟩

def failingCallable : Transaction → DB → DB × Except PyErr Unit :=
  fun _ db => (db, .error .integrityError)

theorem C2_witness :
    failingCallable ⟨dsC2.acquiredConnection, none⟩ dsC2.db
      = (dsC2.db, .error .integrityError) ∧
    ((dsC2.sql failingCallable).result = .error .integrityError ∧
     (dsC2.sql failingCallable).txn._stopped = some "rolled back" ∧
     (dsC2.sql failingCallable).ds.db = dsC2.db) :=
  ⟨rfl, C2_sql_rolls_back_and_propagates_original_failure dsC2
    failingCallable dsC2.db .integrityError rfl⟩

/-- Claim C9: calling `Transaction.execute` after the transaction has
concluded fails with a `TransactionEnded` error carrying the reason —
and `sql` stamps `"committed"` exactly when the callable succeeded
and `"rolled back"` exactly when it failed — while calling `execute`
before the transaction has concluded runs the statement on the
wrapped connection. -/
theorem C9_transaction_execute_contract
    (txn : Transaction) (statement : Stmt) (db : DB) :
    (∀ reason, txn._stopped = some reason →
      txn.execute statement db = (db, .error (.transactionEnded reason))) ∧
    (txn._stopped = none →
      txn.execute statement db
        = Connection.execute txn._connection statement db) ∧
    (∀ {A : Type} (ds : Datastore)
        (f : Transaction → DB → DB × Except PyErr A) (dbAfter : DB) (r : A),
      f ⟨ds.acquiredConnection, none⟩ ds.db = (dbAfter, .ok r) →
        (ds.sql f).txn._stopped = some "committed") ∧
    (∀ {A : Type} (ds : Datastore)
        (f : Transaction → DB → DB × Except PyErr A) (dbAfter : DB)
        (e : PyErr),
      f ⟨ds.acquiredConnection, none⟩ ds.db = (dbAfter, .error e) →
        (ds.sql f).txn._stopped = some "rolled back") := by
  refine ⟨?_, ?_, ?_, ?_⟩
  · intro reason h
    unfold Transaction.execute
    rw [h]
  · intro h
    unfold Transaction.execute
    rw [h]
  · intro A ds f dbAfter r h
    unfold Datastore.sql
    rw [h]
  · intro A ds f dbAfter e h
    unfold Datastore.sql
    rw [h]

def txnC9 : Transaction := ⟨0, some "committed"⟩

def dbC9 : DB := emptyDB

theorem C9_witness :
    (txnC9._stopped = some "committed" ∧
     txnC9.execute (.selectSession "x" true) dbC9
       = (dbC9, .error (.transactionEnded "committed"))) ∧
    ((⟨0, none⟩ : Transaction)._stopped = none ∧
     Transaction.execute ⟨0, none⟩ (.selectSession "x" true) dbC9
       = Connection.execute 0 (.selectSession "x" true) dbC9) :=
  ⟨⟨rfl, (C9_transaction_execute_contract txnC9 (.selectSession "x" true)
      dbC9).1 "committed" rfl⟩,
   ⟨rfl, (C9_transaction_execute_contract ⟨0, none⟩ (.selectSession "x" true)
      dbC9).2.1 rfl⟩⟩

/-- The discipline named by claim C8, one predicate per end:
acquisition in `sql` takes the front (respectively back) element of
the free-connection pool. -/
def sqlAcquiresFromFront : Prop :=
  ∀ (ds : Datastore) (f : Transaction → DB → DB × Except PyErr Unit)
    (c : Nat) (rest : List Nat),
    ds._free_connections = c :: rest → (ds.sql f).txn._connection = c

def sqlAcquiresFromBack : Prop :=
  ∀ (ds : Datastore) (f : Transaction → DB → DB × Except PyErr Unit)
    (c : Nat) (rest : List Nat),
    ds._free_connections = rest ++ [c] → (ds.sql f).txn._connection = c

/-- Release in `sql` leaves the released connection at the front
(respectively back) of the free-connection pool. -/
def sqlReleasesToFront : Prop :=
  ∀ (ds : Datastore) (f : Transaction → DB → DB × Except PyErr Unit),
    ((ds.sql f).ds._free_connections).head?
      = some ((ds.sql f).txn._connection)

def sqlReleasesToBack : Prop :=
  ∀ (ds : Datastore) (f : Transaction → DB → DB × Except PyErr Unit),
    ((ds.sql f).ds._free_connections).getLast?
      = some ((ds.sql f).txn._connection)

/-- Claim C8 as stated is false: `sql` does not use the pool with
stack discipline.  With pool `[7, 9]`, acquisition takes `7` from the
front (so it does not acquire from the back), but the release leaves
the pool `[9, 7]` with `7` at the back (so it does not release to the
front): acquisition and release use opposite ends. -/
theorem C8_counterexample :
    ¬ ((sqlAcquiresFromFront ∧ sqlReleasesToFront) ∨
       (sqlAcquiresFromBack ∧ sqlReleasesToBack)) := by
  rintro (⟨_, hrf⟩ | ⟨hab, _⟩)
  · have h := hrf ⟨emptyDB, [7, 9], 10, 0⟩ (fun _ db => (db, .ok ()))
    revert h
    decide
  · have h := hab ⟨emptyDB, [7, 9], 10, 0⟩ (fun _ db => (db, .ok ())) 9 [7]
      rfl
    revert h
    decide

/-- Claim C8 amended: the free-connection pool is used with queue
(FIFO) discipline — every acquisition in `Datastore.sql` takes the
connection from the front of the pool (`popleft`), and every release
appends the connection to the back (`append`), i.e. the two opposite
ends. -/
theorem C8_pool_queue_discipline {A : Type} (ds : Datastore)
    (f : Transaction → DB → DB × Except PyErr A) (c : Nat)
    (rest : List Nat) (h : ds._free_connections = c :: rest) :
    (ds.sql f).txn._connection = c ∧
    (ds.sql f).ds._free_connections = rest ++ [c] := by
  have hacq : ds.acquiredConnection = c := by
    unfold Datastore.acquiredConnection
    rw [h]
  unfold Datastore.sql
  rw [hacq, h]
  rcases hf : f ⟨c, none⟩ ds.db with ⟨db2, r⟩
  cases r <;> simp

def dsC8 : Datastore := ⟨emptyDB, [7, 9], 10, 0⟩

def trivialCallable : Transaction → DB → DB × Except PyErr Unit :=
  fun _ db => (db, .ok ())

theorem C8_witness :
    dsC8._free_connections = 7 :: [9] ∧
    ((dsC8.sql trivialCallable).txn._connection = 7 ∧
     (dsC8.sql trivialCallable).ds._free_connections = [9] ++ [7]) :=
  ⟨rfl, C8_pool_queue_discipline dsC8 trivialCallable 7 [9] rfl⟩

/-- Claim C10: a successful `log_out()` deletes exactly the
`account_session` rows whose sessionID equals this session's
identifier; the account table, the session table, the IP-tracking
table and every binding row belonging to a different session are
unchanged. -/
theorem C10_log_out_frame (session : SQLSession) (ds : Datastore) :
    (AccountSessionBinding.log_out session ds).result = .ok .done ∧
    (AccountSessionBinding.log_out session ds).ds.db.account_session_table
      = ds.db.account_session_table.filter
          (fun b => !(b.sessionID == session.identifier)) ∧
    (AccountSessionBinding.log_out session ds).ds.db.accountTable
      = ds.db.accountTable ∧
    (AccountSessionBinding.log_out session ds).ds.db.session_table
      = ds.db.session_table ∧
    (AccountSessionBinding.log_out session ds).ds.db.session_ip_table
      = ds.db.session_ip_table ∧
    (∀ b ∈ ds.db.account_session_table,
      b.sessionID ≠ session.identifier →
        b ∈ (AccountSessionBinding.log_out session ds).ds.db.account_session_table) := by
  refine ⟨rfl, rfl, rfl, rfl, rfl, ?_⟩
  intro b hb hne
  have heq : (AccountSessionBinding.log_out session ds).ds.db.account_session_table
      = ds.db.account_session_table.filter
          (fun b => !(b.sessionID == session.identifier)) := rfl
  rw [heq, List.mem_filter]
  exact ⟨hb, by simp [hne]⟩

def dsC10 : Datastore :=
  ⟨⟨[], [], [], [⟨"a1", "s1"⟩, ⟨"a2", "s2"⟩], []⟩, [], 0, 0⟩

theorem C10_witness :
    (AccountSessionBinding.log_out ⟨"s1", true, "cookie"⟩ dsC10).result
      = .ok .done ∧
    (⟨"a2", "s2"⟩ : AccountSessionRow) ∈
      (AccountSessionBinding.log_out ⟨"s1", true, "cookie"⟩ dsC10).ds.db.account_session_table :=
  ⟨(C10_log_out_frame ⟨"s1", true, "cookie"⟩ dsC10).1,
   (C10_log_out_frame ⟨"s1", true, "cookie"⟩ dsC10).2.2.2.2.2
     ⟨"a2", "s2"⟩ (by decide) (by decide)⟩

/-- Evaluation of `create_account` when the insert violates no
constraint: the transaction commits with the new account row
appended, and the new account handle is returned. -/
lemma create_account_insert_ok (username email password uuid : String)
    (ds : Datastore)
    (hany : ds.db.accountTable.any
      (fun a => a.accountID == uuid || a.username == username) = false) :
    AccountSessionBinding.create_account username email password uuid ds
      = (⟨{ ds.db with accountTable := ds.db.accountTable
              ++ [⟨uuid, username, email, computeKeyText password⟩] },
          ds._free_connections.tail ++ [ds.acquiredConnection],
          (if ds._free_connections.isEmpty then ds._next_connection + 1
           else ds._next_connection), ds.txnCount + 1⟩,
         .ok (some ⟨uuid, username, email⟩)) := by
  unfold AccountSessionBinding.create_account Datastore.sql
    Transaction.execute Connection.execute runStatement
  simp [hany]

/-- Evaluation of `create_account` when the insert violates the
uniqueness constraint: the `IntegrityError` is caught inside the
callable, the transaction still commits, the database is unchanged
and the result is `none` rather than an error. -/
lemma create_account_insert_dup (username email password uuid : String)
    (ds : Datastore)
    (hany : ds.db.accountTable.any
      (fun a => a.accountID == uuid || a.username == username) = true) :
    AccountSessionBinding.create_account username email password uuid ds
      = (⟨ds.db, ds._free_connections.tail ++ [ds.acquiredConnection],
          (if ds._free_connections.isEmpty then ds._next_connection + 1
           else ds._next_connection), ds.txnCount + 1⟩,
         .ok none) := by
  unfold AccountSessionBinding.create_account Datastore.sql
    Transaction.execute Connection.execute runStatement
  simp [hany]

/-- Claim C5: calling `create_account` twice with the same username
returns a present account the first time and an absent result the
second time (no error raised), and exactly one account row with that
username exists afterwards. -/
theorem C5_create_account_twice_same_username (ds : Datastore)
    (username email pw1 pw2 uuid1 uuid2 : String)
    (huser : ∀ a ∈ ds.db.accountTable, a.username ≠ username)
    (hid : ∀ a ∈ ds.db.accountTable, a.accountID ≠ uuid1) :
    ∃ ds1 ds2 acct,
      AccountSessionBinding.create_account username email pw1 uuid1 ds
        = (ds1, .ok (some acct)) ∧
      acct.username = username ∧
      AccountSessionBinding.create_account username email pw2 uuid2 ds1
        = (ds2, .ok none) ∧
      ds2.db.accountTable.countP (fun a => a.username == username) = 1 := by
  have hany1 : ds.db.accountTable.any
      (fun a => a.accountID == uuid1 || a.username == username) = false := by
    simp only [List.any_eq_false]
    intro a ha
    simp [hid a ha, huser a ha]
  have h0 : ds.db.accountTable.countP (fun a => a.username == username)
      = 0 := by
    rw [List.countP_eq_zero]
    intro a ha
    simp [huser a ha]
  rw [create_account_insert_ok username email pw1 uuid1 ds hany1]
  have hdup := create_account_insert_dup username email pw2 uuid2
    (⟨{ ds.db with accountTable := ds.db.accountTable
          ++ [⟨uuid1, username, email, computeKeyText pw1⟩] },
       ds._free_connections.tail ++ [ds.acquiredConnection],
       (if ds._free_connections.isEmpty then ds._next_connection + 1
        else ds._next_connection), ds.txnCount + 1⟩)
    (by simp [List.any_append])
  exact ⟨_, _, ⟨uuid1, username, email⟩, rfl, rfl, hdup,
    by simp [List.countP_append, h0]⟩

def dsC5 : Datastore := ⟨emptyDB, [], 0, 0⟩

theorem C5_witness :
    (∀ a ∈ dsC5.db.accountTable, a.username ≠ "alice") ∧
    (∀ a ∈ dsC5.db.accountTable, a.accountID ≠ "uuid-1") ∧
    ∃ ds1 ds2 acct,
      AccountSessionBinding.create_account "alice" "alice@example.com" "pw1"
          "uuid-1" dsC5 = (ds1, .ok (some acct)) ∧
      acct.username = "alice" ∧
      AccountSessionBinding.create_account "alice" "alice@example.com" "pw2"
          "uuid-2" ds1 = (ds2, .ok none) ∧
      ds2.db.accountTable.countP (fun a => a.username == "alice") = 1 :=
  ⟨by simp [dsC5, emptyDB], by simp [dsC5, emptyDB],
   C5_create_account_twice_same_username dsC5 "alice" "alice@example.com"
     "pw1" "pw2" "uuid-1" "uuid-2"
     (by simp [dsC5, emptyDB]) (by simp [dsC5, emptyDB])⟩

/-- Evaluation of `log_in` when no account row matches the username:
the select commits, nothing changes, and the result is `none`. -/
lemma log_in_no_account (session : SQLSession) (username password : String)
    (ds : Datastore)
    (hfil : ds.db.accountTable.filter (fun a => a.username == username)
      = []) :
    AccountSessionBinding.log_in session username password ds
      = (⟨ds.db, ds._free_connections.tail ++ [ds.acquiredConnection],
          (if ds._free_connections.isEmpty then ds._next_connection + 1
           else ds._next_connection), ds.txnCount + 1⟩, .ok none) := by
  simp only [AccountSessionBinding.log_in, Datastore.sql, Transaction.execute,
    Connection.execute, runStatement, hfil]

/-- Evaluation of `log_in` when exactly one account row matches the
username but the password fails verification: `checkAndReset` returns
false without invoking the rehash callback, the function falls
through, and the result is `none` with the database untouched. -/
lemma log_in_wrong_password (session : SQLSession)
    (username password : String) (ds : Datastore) (row : AccountRow)
    (hfil : ds.db.accountTable.filter (fun a => a.username == username)
      = [row])
    (hpw : row.passwordBlob.plaintext ≠ password) :
    AccountSessionBinding.log_in session username password ds
      = (⟨ds.db, ds._free_connections.tail ++ [ds.acquiredConnection],
          (if ds._free_connections.isEmpty then ds._next_connection + 1
           else ds._next_connection), ds.txnCount + 1⟩, .ok none) := by
  simp only [AccountSessionBinding.log_in, Datastore.sql, Transaction.execute,
    Connection.execute, runStatement, hfil, checkAndReset]
  simp [hpw]

/-- Claim C4: for every existing account and every password that
fails verification against that account's stored hash,
`log_in(username, password)` returns an absent result and the stored
password hash (indeed the whole database) is unchanged; likewise
`log_in` with a username matching no account returns absent. -/
theorem C4_log_in_wrong_password_absent_and_unchanged
    (ds : Datastore) (session : SQLSession) (username password : String)
    (huniq : ds.db.accountTable.Pairwise (fun a b => a.username ≠ b.username))
    (hfail : ∀ row ∈ ds.db.accountTable, row.username = username →
      row.passwordBlob.plaintext ≠ password) :
    ∃ ds2, AccountSessionBinding.log_in session username password ds
        = (ds2, .ok none) ∧ ds2.db = ds.db := by
  rcases hfil : ds.db.accountTable.filter (fun a => a.username == username)
    with _ | ⟨row, rest⟩
  · exact ⟨_, log_in_no_account session username password ds hfil, rfl⟩
  · have hrest : rest = [] := by
      have hp : (ds.db.accountTable.filter
          (fun a => a.username == username)).Pairwise
            (fun a b => a.username ≠ b.username) :=
        huniq.sublist (List.filter_sublist _)
      rw [hfil] at hp
      cases rest with
      | nil => rfl
      | cons b t =>
        have hrow : row ∈ ds.db.accountTable.filter
            (fun a => a.username == username) := by
          rw [hfil]; simp
        have hb : b ∈ ds.db.accountTable.filter
            (fun a => a.username == username) := by
          rw [hfil]; simp
        have hrowu : row.username = username := by
          simpa using (List.mem_filter.mp hrow).2
        have hbu : b.username = username := by
          simpa using (List.mem_filter.mp hb).2
        rcases List.pairwise_cons.mp hp with ⟨h1, _⟩
        exact absurd (hrowu.trans hbu.symm) (h1 b (by simp))
    subst hrest
    have hrowmem : row ∈ ds.db.accountTable ∧ row.username = username := by
      have hm : row ∈ ds.db.accountTable.filter
          (fun a => a.username == username) := by
        rw [hfil]; simp
      have h := List.mem_filter.mp hm
      exact ⟨h.1, by simpa using h.2⟩
    exact ⟨_, log_in_wrong_password session username password ds row hfil
      (hfail row hrowmem.1 hrowmem.2), rfl⟩

def dsC4 : Datastore :=
  ⟨⟨[], [], [⟨"a1", "alice", "alice@example.com", ⟨1, "pw"⟩⟩], [], []⟩,
   [], 0, 0⟩

theorem C4_witness :
    dsC4.db.accountTable.Pairwise (fun a b => a.username ≠ b.username) ∧
    (∀ row ∈ dsC4.db.accountTable, row.username = "alice" →
      row.passwordBlob.plaintext ≠ "wrong-password") ∧
    ∃ ds2, AccountSessionBinding.log_in ⟨"s1", true, "cookie"⟩ "alice"
        "wrong-password" dsC4 = (ds2, .ok none) ∧ ds2.db = dsC4.db :=
  ⟨by decide, by decide,
   C4_log_in_wrong_password_absent_and_unchanged dsC4 ⟨"s1", true, "cookie"⟩
     "alice" "wrong-password" (by decide) (by decide)⟩

lemma hexlifyChars_cons (b : Nat) (bs : List Nat) :
    hexlifyChars (b :: bs)
      = hexChar (b / 16) :: hexChar (b % 16) :: hexlifyChars bs := rfl

lemma hexlifyChars_length (bytes : List Nat) :
    (hexlifyChars bytes).length = 2 * bytes.length := by
  induction bytes with
  | nil => rfl
  | cons b bs ih =>
      rw [hexlifyChars_cons]
      simp only [List.length_cons, ih]
      omega

lemma hexChar_mem (n : Nat) : hexChar n ∈ hexDigits := by
  by_cases h : n < hexDigits.length
  · rw [hexChar, List.getD_eq_getElem hexDigits '0' h]
    exact List.getElem_mem h
  · rw [hexChar, List.getD_eq_default _ _ (Nat.le_of_not_lt h)]
    decide

lemma hexlifyChars_mem (bytes : List Nat) :
    ∀ c ∈ hexlifyChars bytes, c ∈ hexDigits := by
  induction bytes with
  | nil => intro c hc; cases hc
  | cons b bs ih =>
      intro c hc
      rw [hexlifyChars_cons] at hc
      rcases List.mem_cons.mp hc with h | hc2
      · exact h ▸ hexChar_mem _
      · rcases List.mem_cons.mp hc2 with h | h
        · exact h ▸ hexChar_mem _
        · exact ih c h

/-- Evaluation of `newSession` when the generated identifier is
fresh: the insert succeeds, the transaction commits with the new
session row appended, and the new `SQLSession` is returned. -/
lemma newSession_fresh (isConfidential : Bool) (authenticatedBy : String)
    (bytes : List Nat) (ds : Datastore)
    (hfresh : ds.db.session_table.any
      (fun r => r.sessionID == hexlify bytes) = false) :
    AlchimiaSessionStore.newSession isConfidential authenticatedBy bytes ds
      = ⟨⟨{ ds.db with session_table := ds.db.session_table
              ++ [⟨hexlify bytes, isConfidential⟩] },
          ds._free_connections.tail ++ [ds.acquiredConnection],
          (if ds._free_connections.isEmpty then ds._next_connection + 1
           else ds._next_connection), ds.txnCount + 1⟩,
         ⟨ds.acquiredConnection, some "committed"⟩,
         .ok ⟨hexlify bytes, isConfidential, authenticatedBy⟩⟩ := by
  simp [AlchimiaSessionStore.newSession, Datastore.sql, Transaction.execute,
    Connection.execute, runStatement, hfresh]

/-- Evaluation of `loadSession` when at least one row matches: the
first fetched row's identifier is reattached to a fresh `SQLSession`
together with the caller-asserted flag and `authenticatedBy`. -/
lemma loadSession_found (identifier : String) (isConfidential : Bool)
    (authenticatedBy : String) (ds : Datastore) (r0 : SessionRow)
    (rest : List SessionRow)
    (hfil : ds.db.session_table.filter (fun r =>
        r.sessionID == identifier && r.confidential == isConfidential)
      = r0 :: rest) :
    AlchimiaSessionStore.loadSession identifier isConfidential
        authenticatedBy ds
      = ⟨⟨ds.db, ds._free_connections.tail ++ [ds.acquiredConnection],
          (if ds._free_connections.isEmpty then ds._next_connection + 1
           else ds._next_connection), ds.txnCount + 1⟩,
         ⟨ds.acquiredConnection, some "committed"⟩,
         .ok ⟨r0.sessionID, isConfidential, authenticatedBy⟩⟩ := by
  simp [AlchimiaSessionStore.loadSession, Datastore.sql, Transaction.execute,
    Connection.execute, runStatement, hfil]

/-- Evaluation of `loadSession` when no row matches: `NoSuchSession`
is raised inside the callable, so the transaction rolls back and the
Deferred fails with it. -/
lemma loadSession_missing (identifier : String) (isConfidential : Bool)
    (authenticatedBy : String) (ds : Datastore)
    (hfil : ds.db.session_table.filter (fun r =>
        r.sessionID == identifier && r.confidential == isConfidential)
      = []) :
    AlchimiaSessionStore.loadSession identifier isConfidential
        authenticatedBy ds
      = ⟨⟨ds.db, ds._free_connections.tail ++ [ds.acquiredConnection],
          (if ds._free_connections.isEmpty then ds._next_connection + 1
           else ds._next_connection), ds.txnCount + 1⟩,
         ⟨ds.acquiredConnection, some "rolled back"⟩,
         .error .noSuchSession⟩ := by
  simp [AlchimiaSessionStore.loadSession, Datastore.sql, Transaction.execute,
    Connection.execute, runStatement, hfil]

/-- Claim C6: `newSession(isConfidential=True,
authenticatedBy="cookie")` returns a session whose identifier is a
64-hex-character string; a subsequent `loadSession` with that
identifier, the same confidentiality flag and `authenticatedBy`
returns an equivalent session (same identifier, confidentiality and
`authenticatedBy`); and `loadSession` with an identifier matching no
stored session fails with `NoSuchSession`. -/
theorem C6_session_roundtrip (ds : Datastore) (entropy : List Nat)
    (hlen : entropy.length = 32)
    (hfresh : ∀ r ∈ ds.db.session_table, r.sessionID ≠ hexlify entropy) :
    (AlchimiaSessionStore.newSession true "cookie" entropy ds).result
      = .ok ⟨hexlify entropy, true, "cookie"⟩ ∧
    (hexlify entropy).length = 64 ∧
    (∀ c ∈ (hexlify entropy).data, c ∈ hexDigits) ∧
    (AlchimiaSessionStore.loadSession (hexlify entropy) true "cookie"
        (AlchimiaSessionStore.newSession true "cookie" entropy ds).ds).result
      = .ok ⟨hexlify entropy, true, "cookie"⟩ ∧
    (∀ badId,
      (∀ r ∈ (AlchimiaSessionStore.newSession true "cookie" entropy
          ds).ds.db.session_table, r.sessionID ≠ badId) →
        (AlchimiaSessionStore.loadSession badId true "cookie"
            (AlchimiaSessionStore.newSession true "cookie" entropy
              ds).ds).result = .error .noSuchSession) := by
  have hany : ds.db.session_table.any
      (fun r => r.sessionID == hexlify entropy) = false := by
    simp only [List.any_eq_false]
    intro r hr
    simp [hfresh r hr]
  have hnew := newSession_fresh true "cookie" entropy ds hany
  refine ⟨?_, ?_, ?_, ?_, ?_⟩
  · rw [hnew]
  · show (hexlifyChars entropy).length = 64
    rw [hexlifyChars_length, hlen]
  · intro c hc
    exact hexlifyChars_mem entropy c hc
  · have hfil : (AlchimiaSessionStore.newSession true "cookie" entropy
        ds).ds.db.session_table.filter (fun r =>
          r.sessionID == hexlify entropy && r.confidential == true)
        = [⟨hexlify entropy, true⟩] := by
      have h1 : ds.db.session_table.filter (fun r =>
          r.sessionID == hexlify entropy && r.confidential == true)
          = [] := by
        rw [List.filter_eq_nil_iff]
        intro r hr
        simp [hfresh r hr]
      simp only [hnew, List.filter_append, h1]
      simp
    rw [loadSession_found (hexlify entropy) true "cookie"
      (AlchimiaSessionStore.newSession true "cookie" entropy ds).ds
      (SessionRow.mk (hexlify entropy) true) [] hfil]
  · intro badId hbad
    have hfil : (AlchimiaSessionStore.newSession true "cookie" entropy
        ds).ds.db.session_table.filter (fun r =>
          r.sessionID == badId && r.confidential == true) = [] := by
      rw [List.filter_eq_nil_iff]
      intro r hr
      simp [hbad r hr]
    rw [loadSession_missing badId true "cookie" _ hfil]

def dsC6 : Datastore := ⟨emptyDB, [], 0, 0⟩

def entropyC6 : List Nat := List.replicate 32 171

theorem C6_witness :
    entropyC6.length = 32 ∧
    (∀ r ∈ dsC6.db.session_table, r.sessionID ≠ hexlify entropyC6) ∧
    ((AlchimiaSessionStore.newSession true "cookie" entropyC6 dsC6).result
        = .ok ⟨hexlify entropyC6, true, "cookie"⟩ ∧
     (hexlify entropyC6).length = 64 ∧
     (AlchimiaSessionStore.loadSession "nonexistent-id" true "cookie"
        (AlchimiaSessionStore.newSession true "cookie" entropyC6
          dsC6).ds).result = .error .noSuchSession) := by
  have h := C6_session_roundtrip dsC6 entropyC6 (by decide) (by decide)
  exact ⟨by decide, by decide, h.1, h.2.1,
    h.2.2.2.2 "nonexistent-id" (by decide)⟩

lemma sameIPKey_update (sid ip fam : String) (t : Nat) (r : SessionIPRow) :
    sameIPKey sid ip fam
      (if sameIPKey sid ip fam r then { r with last_used := t } else r)
      = sameIPKey sid ip fam r := by
  cases h : sameIPKey sid ip fam r
  · simp [h]
  · simp only [h, if_true]
    simp only [sameIPKey] at h ⊢
    exact h

lemma filter_key_map_update (sid ip fam : String) (t : Nat)
    (l : List SessionIPRow) :
    (l.map (fun r => if sameIPKey sid ip fam r then { r with last_used := t }
        else r)).filter (sameIPKey sid ip fam)
      = (l.filter (sameIPKey sid ip fam)).map
          (fun r => if sameIPKey sid ip fam r then { r with last_used := t }
            else r) := by
  induction l with
  | nil => rfl
  | cons r l ih =>
      simp only [List.map_cons, List.filter_cons, sameIPKey_update]
      cases h : sameIPKey sid ip fam r
      · simp [h, ih]
      · simp [h, ih]

/-- The effect of one `upsert` on the rows matching the uniqueness
key: provided the table held at most one matching row (the
constraint), afterwards it holds exactly the row with the new
`last_used` value. -/
lemma upsertTable_filter (sid ip fam : String) (t : Nat)
    (l : List SessionIPRow)
    (hinv : (l.filter (sameIPKey sid ip fam)).length ≤ 1) :
    ((if l.any (sameIPKey sid ip fam)
      then l.map (fun r => if sameIPKey sid ip fam r
          then { r with last_used := t } else r)
      else l ++ [⟨sid, ip, fam, t⟩]).filter (sameIPKey sid ip fam))
      = [⟨sid, ip, fam, t⟩] := by
  cases hany : l.any (sameIPKey sid ip fam)
  · have h0 : l.filter (sameIPKey sid ip fam) = [] := by
      rw [List.filter_eq_nil_iff]
      intro r hr hK
      rw [List.any_eq_false] at hany
      exact hany r hr hK
    simp only [hany, Bool.false_eq_true, if_false, List.filter_append, h0,
      List.nil_append]
    simp [sameIPKey]
  · simp only [hany, if_true]
    rw [filter_key_map_update]
    rcases hfl : l.filter (sameIPKey sid ip fam) with _ | ⟨r0, rest⟩
    · rw [List.any_eq_true] at hany
      obtain ⟨r, hr, hK⟩ := hany
      have : r ∈ l.filter (sameIPKey sid ip fam) :=
        List.mem_filter.mpr ⟨hr, hK⟩
      rw [hfl] at this
      cases this
    · have hrest : rest = [] := by
        rw [hfl] at hinv
        simp only [List.length_cons] at hinv
        exact List.length_eq_zero.mp (by omega)
      subst hrest
      have hK : sameIPKey sid ip fam r0 = true := by
        have hm : r0 ∈ l.filter (sameIPKey sid ip fam) := by
          rw [hfl]
          simp
        exact (List.mem_filter.mp hm).2
      obtain ⟨s0, i0, f0, t0⟩ := r0
      simp only [sameIPKey, Bool.and_eq_true, beq_iff_eq] at hK
      obtain ⟨⟨h1, h2⟩, h3⟩ := hK
      simp [sameIPKey, h1, h2, h3]

/-- Evaluation of `procureSession` when the wrapped procurer yields a
session: the `touch` transaction commits an upsert of
`(sessionID, ip, family) -> now` and the original session is
returned. -/
lemma procureSession_touch (session : SQLSession) (host : String)
    (now : Nat) (ds : Datastore) :
    IPTrackingProcurer.procureSession (some session) (some host) now ds
      = (⟨{ ds.db with session_ip_table :=
            (if ds.db.session_ip_table.any (sameIPKey session.identifier host
                (if host.contains ':' then "AF_INET6" else "AF_INET"))
             then ds.db.session_ip_table.map (fun r =>
                if sameIPKey session.identifier host
                    (if host.contains ':' then "AF_INET6" else "AF_INET") r
                then { r with last_used := now } else r)
             else ds.db.session_ip_table
                ++ [⟨session.identifier, host,
                     (if host.contains ':' then "AF_INET6" else "AF_INET"),
                     now⟩]) },
          ds._free_connections.tail ++ [ds.acquiredConnection],
          (if ds._free_connections.isEmpty then ds._next_connection + 1
           else ds._next_connection), ds.txnCount + 1⟩,
         .ok (some session)) := by
  cases hany : ds.db.session_ip_table.any (sameIPKey session.identifier host
      (if host.contains ':' then "AF_INET6" else "AF_INET"))
  · simp [IPTrackingProcurer.procureSession, upsert, Datastore.sql,
      Transaction.execute, Connection.execute, runStatement, hany]
  · simp [IPTrackingProcurer.procureSession, upsert, Datastore.sql,
      Transaction.execute, Connection.execute, runStatement, hany]

/-- Claim C7: for every `(sessionID, ip_address, address_family)`
key, performing the IP-tracking upsert twice (two successful session
procurements from the same address at times `t1 ≤ t2`) leaves
exactly one `session_ip` row for that key, with `last_used` equal to
the later of the two timestamps. -/
theorem C7_ip_tracking_upsert (ds : Datastore) (session : SQLSession)
    (host : String) (t1 t2 : Nat) (hle : t1 ≤ t2)
    (hinv : (ds.db.session_ip_table.filter (sameIPKey session.identifier host
        (if host.contains ':' then "AF_INET6" else "AF_INET"))).length ≤ 1) :
    ∃ ds1 ds2,
      IPTrackingProcurer.procureSession (some session) (some host) t1 ds
        = (ds1, .ok (some session)) ∧
      IPTrackingProcurer.procureSession (some session) (some host) t2 ds1
        = (ds2, .ok (some session)) ∧
      ds2.db.session_ip_table.filter (sameIPKey session.identifier host
          (if host.contains ':' then "AF_INET6" else "AF_INET"))
        = [⟨session.identifier, host,
            (if host.contains ':' then "AF_INET6" else "AF_INET"),
            Nat.max t1 t2⟩] ∧
      ds2.db.session_ip_table.countP (sameIPKey session.identifier host
          (if host.contains ':' then "AF_INET6" else "AF_INET")) = 1 := by
  have hfil1 := upsertTable_filter session.identifier host
    (if host.contains ':' then "AF_INET6" else "AF_INET") t1
    ds.db.session_ip_table hinv
  have hfil2 := upsertTable_filter session.identifier host
    (if host.contains ':' then "AF_INET6" else "AF_INET") t2
    (if ds.db.session_ip_table.any (sameIPKey session.identifier host
        (if host.contains ':' then "AF_INET6" else "AF_INET"))
     then ds.db.session_ip_table.map (fun r =>
        if sameIPKey session.identifier host
            (if host.contains ':' then "AF_INET6" else "AF_INET") r
        then { r with last_used := t1 } else r)
     else ds.db.session_ip_table
        ++ [⟨session.identifier, host,
             (if host.contains ':' then "AF_INET6" else "AF_INET"), t1⟩])
    (by rw [hfil1]; simp)
  refine ⟨_, _, procureSession_touch session host t1 ds,
    procureSession_touch session host t2 _, ?_, ?_⟩
  · dsimp only
    have hmax : Nat.max t1 t2 = t2 := Nat.max_eq_right hle
    rw [hmax]
    exact hfil2
  · dsimp only
    rw [List.countP_eq_length_filter, hfil2]
    rfl

def dsC7 : Datastore := ⟨emptyDB, [], 0, 0⟩

theorem C7_witness :
    (5 : Nat) ≤ 9 ∧
    (dsC7.db.session_ip_table.filter (sameIPKey "s1" "10.0.0.1"
        (if ("10.0.0.1" : String).contains ':' then "AF_INET6"
         else "AF_INET"))).length ≤ 1 ∧
    ∃ ds1 ds2,
      IPTrackingProcurer.procureSession (some ⟨"s1", true, "cookie"⟩)
          (some "10.0.0.1") 5 dsC7 = (ds1, .ok (some ⟨"s1", true, "cookie"⟩)) ∧
      IPTrackingProcurer.procureSession (some ⟨"s1", true, "cookie"⟩)
          (some "10.0.0.1") 9 ds1 = (ds2, .ok (some ⟨"s1", true, "cookie"⟩)) ∧
      ds2.db.session_ip_table.filter (sameIPKey "s1" "10.0.0.1"
          (if ("10.0.0.1" : String).contains ':' then "AF_INET6"
           else "AF_INET"))
        = [⟨"s1", "10.0.0.1",
            (if ("10.0.0.1" : String).contains ':' then "AF_INET6"
             else "AF_INET"), Nat.max 5 9⟩] ∧
      ds2.db.session_ip_table.countP (sameIPKey "s1" "10.0.0.1"
          (if ("10.0.0.1" : String).contains ':' then "AF_INET6"
           else "AF_INET")) = 1 :=
  ⟨by decide, by decide,
   C7_ip_tracking_upsert dsC7 ⟨"s1", true, "cookie"⟩ "10.0.0.1" 5 9
     (by decide) (by decide)⟩

lemma mem_keys_dictSet {V : Type} (m : List (Interface × V))
    (k x : Interface) (v : V) :
    x ∈ (dictSet m k v).map Prod.fst ↔ x ∈ m.map Prod.fst ∨ x = k := by
  unfold dictSet
  cases hany : m.any (fun kv => kv.1 == k)
  · simp [hany]
  · have hk : k ∈ m.map Prod.fst := by
      rw [List.any_eq_true] at hany
      obtain ⟨kv, hkv, he⟩ := hany
      rw [beq_iff_eq] at he
      exact he ▸ List.mem_map_of_mem Prod.fst hkv
    have hmap : (m.map (fun kv => if kv.1 == k then (k, v) else kv)).map
        Prod.fst = m.map Prod.fst := by
      rw [List.map_map]
      apply List.map_congr_left
      intro kv hkv
      by_cases h : kv.1 = k
      · simp [h]
      · simp [h]
    simp only [hany, if_true]
    rw [hmap]
    constructor
    · intro h
      exact Or.inl h
    · rintro (h | rfl)
      · exact h
      · exact hk

lemma authorize_foldl_keys {V : Type} (txn : Transaction)
    (session : SQLSession) (interfaces : List Interface)
    (l : List (SQLAuthorizer V)) (db : DB) (m : List (Interface × V))
    (x : Interface) :
    x ∈ ((l.foldl (authzn_step txn session interfaces) (db, m)).2.map
        Prod.fst) ↔
      x ∈ m.map Prod.fst ∨ (x ∈ interfaces ∧ ∃ a ∈ l, a.authzn_for = x) := by
  induction l generalizing db m with
  | nil => simp
  | cons a l ih =>
      rw [List.foldl_cons]
      by_cases ha : a.authzn_for ∈ interfaces
      · simp only [authzn_step, ha, if_true]
        rw [ih, mem_keys_dictSet]
        constructor
        · rintro ((h | rfl) | ⟨hx, b, hb, rfl⟩)
          · exact Or.inl h
          · exact Or.inr ⟨ha, a, List.mem_cons_self a l, rfl⟩
          · exact Or.inr ⟨hx, b, List.mem_cons_of_mem a hb, rfl⟩
        · rintro (h | ⟨hx, b, hb, rfl⟩)
          · exact Or.inl (Or.inl h)
          · rcases List.mem_cons.mp hb with rfl | hb2
            · exact Or.inl (Or.inr rfl)
            · exact Or.inr ⟨hx, b, hb2, rfl⟩
      · simp only [authzn_step, ha, if_false]
        rw [ih]
        constructor
        · rintro (h | ⟨hx, b, hb, rfl⟩)
          · exact Or.inl h
          · exact Or.inr ⟨hx, b, List.mem_cons_of_mem a hb, rfl⟩
        · rintro (h | ⟨hx, b, hb, rfl⟩)
          · exact Or.inl h
          · rcases List.mem_cons.mp hb with rfl | hb2
            · exact absurd hx ha
            · exact Or.inr ⟨hx, b, hb2, rfl⟩

lemma authorize_foldl_db {V : Type} (txn : Transaction)
    (session : SQLSession) (interfaces : List Interface)
    (l : List (SQLAuthorizer V)) (db : DB) (m : List (Interface × V)) :
    (l.foldl (authzn_step txn session interfaces) (db, m)).1
      = l.foldl (fun dbAcc a => if a.authzn_for ∈ interfaces
          then (a.authzn_for_session txn session dbAcc).1 else dbAcc) db := by
  induction l generalizing db m with
  | nil => rfl
  | cons a l ih =>
      rw [List.foldl_cons, List.foldl_cons]
      by_cases ha : a.authzn_for ∈ interfaces
      · simp only [authzn_step, ha, if_true]
        exact ih _ _
      · simp only [authzn_step, ha, if_false]
        exact ih _ _

/-- Claim C3: `Session.authorize(capabilities)` runs every matched
authorizer inside one shared transaction (a single `Datastore.sql`
call: the transaction counter increases by exactly one, and the
database effects of all matched authorizers are threaded in
registration order through that one transaction), and the returned
mapping has an entry exactly for each requested capability that has a
registered provider; requested capabilities with no provider are
absent from the mapping and cause no error (the result is `ok`). -/
theorem C3_authorize_single_transaction_and_keys {V : Type}
    (components : List (SQLAuthorizer V)) (session : SQLSession)
    (interfaces : List Interface) (ds : Datastore) :
    ∃ m, (SQLSession.authorize session components interfaces ds).result
        = .ok m ∧
      (∀ c, c ∈ m.map Prod.fst ↔ (c ∈ interfaces ∧
        ∃ a ∈ componentsProvidingAuthorizer components, a.authzn_for = c)) ∧
      (SQLSession.authorize session components interfaces ds).ds.txnCount
        = ds.txnCount + 1 ∧
      (SQLSession.authorize session components interfaces ds).ds.db
        = (componentsProvidingAuthorizer components).foldl
            (fun dbAcc a => if a.authzn_for ∈ interfaces
              then (a.authzn_for_session ⟨ds.acquiredConnection, none⟩
                session dbAcc).1
              else dbAcc) ds.db := by
  refine ⟨((componentsProvidingAuthorizer components).foldl
      (authzn_step ⟨ds.acquiredConnection, none⟩ session interfaces)
      (ds.db, [])).2, rfl, ?_, rfl, ?_⟩
  · intro c
    have h := authorize_foldl_keys ⟨ds.acquiredConnection, none⟩ session
      interfaces (componentsProvidingAuthorizer components) ds.db [] c
    simpa using h
  · exact authorize_foldl_db ⟨ds.acquiredConnection, none⟩ session
      interfaces (componentsProvidingAuthorizer components) ds.db []

def authzA : SQLAuthorizer Nat :=
  { provides := [.ISQLAuthorizer]
    authzn_for := .ISimpleAccountBinding
    authzn_for_session := fun _ _ db => (db, 1) }

def authzB : SQLAuthorizer Nat :=
  { provides := [.ISQLAuthorizer]
    authzn_for := .ISimpleAccount
    authzn_for_session := fun _ _ db => (db, 2) }

def dsC3 : Datastore := ⟨emptyDB, [], 0, 0⟩

theorem C3_witness :
    ∃ m, (SQLSession.authorize ⟨"s1", true, "cookie"⟩ [authzA, authzB]
        [Interface.ISimpleAccountBinding, Interface.IOther 7] dsC3).result
        = .ok m ∧
      (∀ c, c ∈ m.map Prod.fst ↔ (c ∈ [Interface.ISimpleAccountBinding,
          Interface.IOther 7] ∧
        ∃ a ∈ componentsProvidingAuthorizer [authzA, authzB],
          a.authzn_for = c)) ∧
      (SQLSession.authorize ⟨"s1", true, "cookie"⟩ [authzA, authzB]
        [Interface.ISimpleAccountBinding, Interface.IOther 7]
          dsC3).ds.txnCount = dsC3.txnCount + 1 ∧
      (SQLSession.authorize ⟨"s1", true, "cookie"⟩ [authzA, authzB]
        [Interface.ISimpleAccountBinding, Interface.IOther 7] dsC3).ds.db
        = (componentsProvidingAuthorizer [authzA, authzB]).foldl
            (fun dbAcc a => if a.authzn_for ∈ [Interface.ISimpleAccountBinding,
                Interface.IOther 7]
              then (a.authzn_for_session ⟨dsC3.acquiredConnection, none⟩
                ⟨"s1", true, "cookie"⟩ dbAcc).1
              else dbAcc) dsC3.db :=
  C3_authorize_single_transaction_and_keys [authzA, authzB]
    ⟨"s1", true, "cookie"⟩ [.ISimpleAccountBinding, .IOther 7] dsC3

/-- Claim C1 names a behaviour the code does not have: the source's
`openSessionStore` provisions the four standard components (plus the
caller-supplied creators) and returns the `IPTrackingProcurer`, but
neither it nor `AlchimiaDataStore.open` ever invokes
`_populate_schema`, so no `initialize_schema` runs: the returned
store has begun no transaction and created no table, while running
`_populate_schema` on the same registry would have created all four
tables in one transaction. -/
theorem C1_openSessionStore_never_runs_schema_initialization
    (customs : List OpenComponent) :
    (openSessionStore customs).2 = some ipTrackingProcurerComponent ∧
    (openSessionStore customs).1.1
      = [alchimiaSessionStoreComponent, accountBindingStorePluginComponent,
         ipTrackingProcurerComponent, accountLoginAuthorizerComponent]
        ++ customs ∧
    (openSessionStore customs).1.2.txnCount = 0 ∧
    (openSessionStore customs).1.2.db.createdTables = [] ∧
    (AlchimiaDataStore.populate_schema (openSessionStore []).1.1
        (openSessionStore []).1.2).ds.db.createdTables
      = ["session", "account", "account_session", "session_ip"] := by
  refine ⟨?_, rfl, rfl, rfl, ?_⟩
  · show (componentsProviding .ISessionProcurer
      ([alchimiaSessionStoreComponent, accountBindingStorePluginComponent,
        ipTrackingProcurerComponent, accountLoginAuthorizerComponent]
       ++ customs)).head? = some ipTrackingProcurerComponent
    rw [componentsProviding, List.filter_append]
    rfl
  · rfl
